import Mathlib

/-
  Verification of the SICP RS232C display-control tool (src/main.go).

  The repository holds two revisions of the same program. The newer revision
  stores bare command payloads and assembles the frame around them (address
  header, length byte, device id, optional extra byte, checksum); the older
  revision stores pre-framed byte strings and only appends the checksum.
  Bytes are modelled as natural numbers; the one place the Go code narrows an
  int to a byte (the length field) carries an explicit % 256.
-/

/-- XOR checksum, function csum of src/main.go: the XOR-fold of the byte
sequence, left to right, starting from 0. -/
def csum (v : List Nat) : Nat := v.foldl (fun r b => r ^^^ b) 0

/-- Command table of the newer revision (src/main.go, first revision,
map commands): command name to bare payload bytes. -/
def commands : List (String × List Nat) := [
  ("ON",        [0x18, 0x02]),
  ("OFF",       [0x18, 0x01]),
  ("PIC-NORM",  [0x3A, 0x00]),
  ("PIC-CUST",  [0x3A, 0x01]),
  ("PIC-REAL",  [0x3A, 0x02]),
  ("PIC-FULL",  [0x3A, 0x03]),
  ("PIC-21-9",  [0x3A, 0x04]),
  ("PIC-DYN",   [0x3A, 0x05]),
  ("PIP-OFF",   [0x3C, 0x00, 0x00, 0x00, 0x00]),
  ("PIP-BL",    [0x3C, 0x01, 0x00, 0x00, 0x00]),
  ("PIP-TL",    [0x3C, 0x01, 0x01, 0x00, 0x00]),
  ("PIP-TR",    [0x3C, 0x01, 0x02, 0x00, 0x00]),
  ("PIP-BR",    [0x3C, 0x01, 0x03, 0x00, 0x00]),
  ("VOL0",      [0x44, 0x00]),
  ("VOL10",     [0x44, 0x0A]),
  ("VOL20",     [0x44, 0x14]),
  ("VOL30",     [0x44, 0x1E]),
  ("VOL40",     [0x44, 0x28]),
  ("VOL50",     [0x44, 0x32]),
  ("VOL60",     [0x44, 0x3C]),
  ("VOL70",     [0x44, 0x46]),
  ("VOL80",     [0x44, 0x50]),
  ("VOL90",     [0x44, 0x5A]),
  ("VOL100",    [0x44, 0x64]),
  ("REP-INPUT", [0xAD]),
  ("IN-VGA",    [0xAC, 0x05, 0x00, 0x01, 0x00]),
  ("IN-HDMI",   [0xAC, 0x06, 0x02, 0x01, 0x00]),
  ("IN-MHDMI",  [0xAC, 0x06, 0x03, 0x01, 0x00]),
  ("IN-DP",     [0xAC, 0x09, 0x04, 0x01, 0x00]),
  ("IN-MDP",    [0xAC, 0x09, 0x05, 0x01, 0x00])]

/-- Command table of the older revision (src/main.go, second revision,
map commands): command name to a pre-framed byte string, address header and
length byte already embedded, checksum still missing. -/
def commandsOld : List (String × List Nat) := [
  ("ON",         [0xA6, 0x01, 0x00, 0x00, 0x00, 0x04, 0x01, 0x18, 0x02]),
  ("OFF",        [0xA6, 0x01, 0x00, 0x00, 0x00, 0x04, 0x01, 0x18, 0x01]),
  ("PIP-OFF",    [0xA6, 0x01, 0x00, 0x00, 0x00, 0x07, 0x01, 0x3C, 0x00, 0x00, 0x00, 0x00]),
  ("PIP-BL",     [0xA6, 0x01, 0x00, 0x00, 0x00, 0x07, 0x01, 0x3C, 0x01, 0x00, 0x00, 0x00]),
  ("PIP-TL",     [0xA6, 0x01, 0x00, 0x00, 0x00, 0x07, 0x01, 0x3C, 0x01, 0x01, 0x00, 0x00]),
  ("PIP-TR",     [0xA6, 0x01, 0x00, 0x00, 0x00, 0x07, 0x01, 0x3C, 0x01, 0x02, 0x00, 0x00]),
  ("PIP-BR",     [0xA6, 0x01, 0x00, 0x00, 0x00, 0x07, 0x01, 0x3C, 0x01, 0x03, 0x00, 0x00]),
  ("VOL0",       [0xA6, 0x01, 0x00, 0x00, 0x00, 0x04, 0x01, 0x44, 0x00]),
  ("VOL10",      [0xA6, 0x01, 0x00, 0x00, 0x00, 0x04, 0x01, 0x44, 0x0A]),
  ("VOL20",      [0xA6, 0x01, 0x00, 0x00, 0x00, 0x04, 0x01, 0x44, 0x14]),
  ("VOL30",      [0xA6, 0x01, 0x00, 0x00, 0x00, 0x04, 0x01, 0x44, 0x1E]),
  ("VOL40",      [0xA6, 0x01, 0x00, 0x00, 0x00, 0x04, 0x01, 0x44, 0x28]),
  ("VOL50",      [0xA6, 0x01, 0x00, 0x00, 0x00, 0x04, 0x01, 0x44, 0x32]),
  ("VOL60",      [0xA6, 0x01, 0x00, 0x00, 0x00, 0x04, 0x01, 0x44, 0x3C]),
  ("VOL70",      [0xA6, 0x01, 0x00, 0x00, 0x00, 0x04, 0x01, 0x44, 0x46]),
  ("VOL80",      [0xA6, 0x01, 0x00, 0x00, 0x00, 0x04, 0x01, 0x44, 0x50]),
  ("VOL90",      [0xA6, 0x01, 0x00, 0x00, 0x00, 0x04, 0x01, 0x44, 0x5A]),
  ("VOL100",     [0xA6, 0x01, 0x00, 0x00, 0x00, 0x04, 0x01, 0x44, 0x64]),
  ("PIC-NORM",   [0xA6, 0x01, 0x00, 0x00, 0x00, 0x04, 0x01, 0x3A, 0x00]),
  ("PIC-CUST",   [0xA6, 0x01, 0x00, 0x00, 0x00, 0x04, 0x01, 0x3A, 0x01]),
  ("PIC-REAL",   [0xA6, 0x01, 0x00, 0x00, 0x00, 0x04, 0x01, 0x3A, 0x02]),
  ("PIC-FULL",   [0xA6, 0x01, 0x00, 0x00, 0x00, 0x04, 0x01, 0x3A, 0x03]),
  ("PIC-219",    [0xA6, 0x01, 0x00, 0x00, 0x00, 0x04, 0x01, 0x3A, 0x04]),
  ("PIC-DYN  ",  [0xA6, 0x01, 0x00, 0x00, 0x00, 0x04, 0x01, 0x3A, 0x05]),
  ("MODE-GAME",  [0xA6, 0x01, 0x00, 0x00, 0x00, 0x0A, 0x01, 0x32, 0x64, 0x64, 0x64, 0x5A, 0x64, 0x00, 0x03]),
  ("MODE-OFF",   [0xA6, 0x01, 0x00, 0x00, 0x00, 0x0A, 0x01, 0x32, 0x5F, 0x32, 0x32, 0x32, 0x32, 0x00, 0x03]),
  ("TEMP-USER",  [0xA6, 0x01, 0x00, 0x00, 0x00, 0x04, 0x01, 0x34, 0x00]),
  ("TEMP-NATU",  [0xA6, 0x01, 0x00, 0x00, 0x00, 0x04, 0x01, 0x34, 0x01]),
  ("TEMP-3000",  [0xA6, 0x01, 0x00, 0x00, 0x00, 0x04, 0x01, 0x34, 0x0D]),
  ("TEMP-6500",  [0xA6, 0x01, 0x00, 0x00, 0x00, 0x04, 0x01, 0x34, 0x06]),
  ("TEMP-10000", [0xA6, 0x01, 0x00, 0x00, 0x00, 0x04, 0x01, 0x34, 0x09])]

/-- Frame assembly of the newer revision (request construction in main).
With alt = false (standard mode) the address header A6 01 00 00 00 is
prepended and the length byte is byte(len(val)+2); with alt = true
(legacy-no-prefix mode) there is no header, the length byte is
byte(len(val)+4) and an extra 0x00 follows the device id. The Go narrowing
conversion byte(...) truncates modulo 256. The checksum of everything built
so far is appended last. -/
def encode (alt : Bool) (val : List Nat) : List Nat :=
  let r1 : List Nat := if alt then [] else [0xA6, 0x01, 0x00, 0x00, 0x00]
  let r2 := r1 ++ [if alt then (val.length + 4) % 256 else (val.length + 2) % 256]
  let r3 := r2 ++ [0x01]
  let r4 := r3 ++ (if alt then [0x00] else [])
  let r5 := r4 ++ val
  r5 ++ [csum r5]

/-- Frame assembly of the older revision: the pre-framed table entry with its
checksum appended (request := append([]byte(val), csum(val))). -/
def encodeOld (val : List Nat) : List Nat := val ++ [csum val]

/-- The bytes of an assembled frame before the checksum byte, written as one
flat concatenation; encode alt val = encodeBody alt val ++ [csum of it]. -/
def encodeBody (alt : Bool) (val : List Nat) : List Nat :=
  (if alt then [] else [0xA6, 0x01, 0x00, 0x00, 0x00]) ++
    [if alt then (val.length + 4) % 256 else (val.length + 2) % 256] ++
    [0x01] ++ (if alt then [0x00] else []) ++ val

/-- Modelled from the spec: checksum validation of a received frame (the
repository has no decoder, only the encoder); recompute the XOR-fold over all
bytes except the last and compare it with the stored final byte. -/
def valid (f : List Nat) : Bool := csum f.dropLast == f.getD (f.length - 1) 0

/-- Linux termios constant CBAUD, as in src/main.go. -/
def CBAUD : Nat := 0x100F

/-- Linux termios constant CRTSCTS, as in src/main.go. -/
def CRTSCTS : Nat := 0x80000000

/-- Linux termios constant PARENB (0400 octal). -/
def PARENB : Nat := 0x100

/-- Linux termios constant CSTOPB (0100 octal). -/
def CSTOPB : Nat := 0x40

/-- Linux termios constant CS8 (060 octal). -/
def CS8 : Nat := 0x30

/-- Linux termios constant CLOCAL (04000 octal). -/
def CLOCAL : Nat := 0x800

/-- Linux termios constant CREAD (0200 octal). -/
def CREAD : Nat := 0x80

/-- Go expression x &= ^uint32(m): clear the bits of a 32-bit mask. -/
def clear32 (x m : Nat) : Nat := x &&& (0xFFFFFFFF ^^^ m)

/-- The baud-rate bits chosen by the speed switch of main (syscall.B1200
through syscall.B115200); none models the default branch, which calls
log.Fatal("Unknown speed: ", ...). -/
def baudBits (s : Nat) : Option Nat :=
  if s = 1200 then some 0x9
  else if s = 9600 then some 0xD
  else if s = 19200 then some 0xE
  else if s = 38400 then some 0xF
  else if s = 57600 then some 0x1001
  else if s = 115200 then some 0x1002
  else none

/-- The speed-independent Cflag manipulation of main: clear CBAUD, CRTSCTS,
PARENB and CSTOPB, then set CS8, CLOCAL and CREAD. -/
def cflagBase (c : Nat) : Nat :=
  clear32 (clear32 (clear32 (clear32 c CBAUD) CRTSCTS) PARENB) CSTOPB ||| CS8 ||| CLOCAL ||| CREAD

/-- The whole Cflag configuration for a requested speed: the fixed bit
manipulation followed by the speed switch; none models the fatal default
branch (ConfigError), in which no fallback rate is chosen. -/
def configureCflag (c speed : Nat) : Option Nat :=
  (baudBits speed).map (fun b => cflagBase c ||| b)

/-- Port operations attempted by one run of the program, in order: the
os.OpenFile call, the TCIOFLUSH ioctl, the TCGETS ioctl, the TCSETS ioctl,
the frame write, the response read. -/
inductive Event where
  | openPort
  | flushPort
  | getAttrs
  | setAttrs
  | writeFrame (f : List Nat)
  | readResp
deriving DecidableEq

/-- How one run of the program ends: the help/usage path (os.Exit(0)), a
fatal strconv.Unquote failure, a fatal unknown-speed failure, or a completed
transaction carrying the transmitted frame. -/
inductive Outcome where
  | usage
  | fatalUnquote
  | fatalSpeed
  | done (f : List Nat)
deriving DecidableEq

/-- The command-line inputs the modelled core consumes. -/
structure Args where
  cmd : String
  cust : String
  alt : Bool
  help : Bool
  speed : Nat

/-- The port-facing tail of main, after the payload has been selected: the
port is opened, then the help/usage check runs, then flush and TCGETS, then
the speed switch (fatal on unknown speed), then TCSETS, the frame write and
the response read. The OS calls themselves are assumed to succeed; their
error paths depend only on the environment. -/
def runPort (help : Bool) (speed : Nat) (alt : Bool) (val : List Nat) (ok : Bool) :
    Outcome × List Event :=
  if help || !ok then (Outcome.usage, [Event.openPort])
  else
    match baudBits speed with
    | none => (Outcome.fatalSpeed, [Event.openPort, Event.flushPort, Event.getAttrs])
    | some _ =>
        let f := encode alt val
        (Outcome.done f,
         [Event.openPort, Event.flushPort, Event.getAttrs, Event.setAttrs,
          Event.writeFrame f, Event.readResp])

/-- main of the newer revision: look the command up in the registry; a
non-empty custom string is unquoted instead (fatal before the port is even
opened when unquoting fails) and forces ok; then the port transaction runs.
The unquote argument abstracts strconv.Unquote from the Go standard
library. -/
def run (unquote : String → Option (List Nat)) (a : Args) : Outcome × List Event :=
  let looked := List.lookup a.cmd commands
  if a.cust ≠ "" then
    match unquote a.cust with
    | none => (Outcome.fatalUnquote, [])
    | some v => runPort a.help a.speed a.alt v true
  else
    runPort a.help a.speed a.alt (looked.getD []) looked.isSome

theorem foldl_xor_eq (v : List Nat) (x : Nat) :
    v.foldl (fun r b => r ^^^ b) x = x ^^^ csum v := by
  induction v generalizing x with
  | nil => simp [csum]
  | cons a t ih =>
      have hc : csum (a :: t) = a ^^^ csum t := by
        show t.foldl (fun r b => r ^^^ b) (0 ^^^ a) = a ^^^ csum t
        rw [ih, Nat.zero_xor]
      show t.foldl (fun r b => r ^^^ b) (x ^^^ a) = x ^^^ csum (a :: t)
      rw [ih, hc, Nat.xor_assoc]

theorem csum_nil : csum [] = 0 := rfl

theorem csum_cons (a : Nat) (t : List Nat) : csum (a :: t) = a ^^^ csum t := by
  show t.foldl (fun r b => r ^^^ b) (0 ^^^ a) = a ^^^ csum t
  rw [foldl_xor_eq, Nat.zero_xor]

theorem csum_append (s t : List Nat) : csum (s ++ t) = csum s ^^^ csum t := by
  show (s ++ t).foldl (fun r b => r ^^^ b) 0 = csum s ^^^ csum t
  rw [List.foldl_append, foldl_xor_eq]
  rfl

theorem csum_set (F : List Nat) (i b : Nat) (hi : i < F.length) :
    csum (F.set i b) = csum F ^^^ (F.getD i 0 ^^^ b) := by
  induction F generalizing i with
  | nil => simp at hi
  | cons a t ih =>
      cases i with
      | zero =>
          simp only [List.set, List.getD_cons_zero, csum_cons]
          rw [Nat.xor_comm a (csum t), Nat.xor_assoc, ← Nat.xor_assoc a a b,
            Nat.xor_self, Nat.zero_xor, Nat.xor_comm (csum t) b]
      | succ n =>
          have hn : n < t.length := Nat.lt_of_succ_lt_succ hi
          simp only [List.set, csum_cons, ih n hn, List.getD_cons_succ, Nat.xor_assoc]

theorem encode_eq (alt : Bool) (val : List Nat) :
    encode alt val = encodeBody alt val ++ [csum (encodeBody alt val)] := by
  cases alt <;> simp [encode, encodeBody]

theorem encodeBody_length (alt : Bool) (val : List Nat) :
    (encodeBody alt val).length = val.length + (if alt then 3 else 7) := by
  cases alt <;> simp [encodeBody]

theorem encodeBody_getD (alt : Bool) (val : List Nat) (i : Nat)
    (hi : i < (encodeBody alt val).length) :
    (encode alt val).getD i 0 = (encodeBody alt val).getD i 0 := by
  rw [encode_eq]
  simp [List.getD, List.getElem?_append_left hi]

theorem nat_and_or_right (x y z : Nat) : (x ||| y) &&& z = x &&& z ||| y &&& z := by
  apply Nat.eq_of_testBit_eq
  intro i
  simp [Nat.testBit_and, Nat.testBit_or, Bool.and_or_distrib_right]

theorem cflagBase_and_CBAUD (c : Nat) : cflagBase c &&& CBAUD = 0 := by
  simp only [cflagBase, clear32, CBAUD, CRTSCTS, PARENB, CSTOPB, CS8, CLOCAL, CREAD,
    nat_and_or_right, Nat.land_assoc]
  have h1 : (0xFFFFFFFF ^^^ 0x100F : Nat) &&& ((0xFFFFFFFF ^^^ 0x80000000) &&&
      ((0xFFFFFFFF ^^^ 0x100) &&& ((0xFFFFFFFF ^^^ 0x40) &&& 0x100F))) = 0 := by decide
  rw [h1, Nat.and_zero]
  decide

theorem cflag_or_baud (c b : Nat) (hb : b &&& CBAUD = b) :
    (cflagBase c ||| b) &&& CBAUD = b := by
  rw [nat_and_or_right, cflagBase_and_CBAUD, Nat.zero_or, hb]

theorem valid_set_ne (F : List Nat) (i b : Nat) (hi : i < F.length) (hb : b ≠ F.getD i 0) :
    valid ((F ++ [csum F]).set i b) = false := by
  rw [List.set_append_left _ _ hi]
  unfold valid
  rw [List.dropLast_concat]
  have hlast : (F.set i b ++ [csum F]).getD ((F.set i b ++ [csum F]).length - 1) 0 = csum F := by
    simp [List.getD_append_right]
  rw [hlast, csum_set F i b hi]
  simp only [beq_eq_false_iff_ne, ne_eq]
  intro hcontra
  have h0 : csum F ^^^ (F.getD i 0 ^^^ b) = csum F ^^^ 0 := by rw [Nat.xor_zero]; exact hcontra
  have h1 : F.getD i 0 ^^^ b = 0 := Nat.xor_right_injective h0
  exact hb (Nat.xor_eq_zero.mp h1).symm

/-- C1 (amended): standard-mode encoding of a payload of N bytes produces the
frame header(0xA6 0x01 0x00 0x00 0x00), then the length byte (N + 2) mod 256
(equal to N + 2 whenever N is at most 253), then deviceId(0x01), then the
payload, then a checksum byte equal to the XOR-fold, left to right, of every
frame byte preceding it, header included. -/
theorem encode_standard_frame (val : List Nat) :
    encode false val =
      [0xA6, 0x01, 0x00, 0x00, 0x00] ++ [(val.length + 2) % 256] ++ [0x01] ++ val ++
        [csum ([0xA6, 0x01, 0x00, 0x00, 0x00] ++ [(val.length + 2) % 256] ++ [0x01] ++ val)] := by
  simp [encode]

set_option maxRecDepth 8192 in
/-- C1 counterexample: for the 254-byte all-zero payload the standard-mode
length byte is (254 + 2) mod 256 = 0, not N + 2 = 256; the Go narrowing
conversion byte(len(val)+2) wraps. -/
theorem encode_standard_length_byte_wraps :
    (encode false (List.replicate 254 0)).getD 5 0 ≠ (List.replicate 254 (0 : Nat)).length + 2 := by
  decide

/-- C5 (amended): legacy-no-prefix encoding of a payload of N bytes produces
the length byte (N + 4) mod 256 (equal to N + 4 whenever N is at most 251),
then deviceId(0x01), then extraByte(0x00), then the payload, then a checksum
byte equal to the XOR-fold of the preceding bytes. -/
theorem encode_alt_frame (val : List Nat) :
    encode true val =
      [(val.length + 4) % 256] ++ [0x01] ++ [0x00] ++ val ++
        [csum ([(val.length + 4) % 256] ++ [0x01] ++ [0x00] ++ val)] := by
  simp [encode]

set_option maxRecDepth 8192 in
/-- C5 counterexample: for the 252-byte all-zero payload the legacy-no-prefix
length byte is (252 + 4) mod 256 = 0, not N + 4 = 256. -/
theorem encode_alt_length_byte_wraps :
    (encode true (List.replicate 252 0)).getD 0 0 ≠ (List.replicate 252 (0 : Nat)).length + 4 := by
  decide

/-- C6: the registered command ON has payload 0x18 0x02 and its standard-mode
frame is exactly A6 01 00 00 00 04 01 18 02 followed by a checksum byte equal
to the XOR of those nine bytes. -/
theorem on_command_frame :
    List.lookup "ON" commands = some [0x18, 0x02] ∧
    encode false [0x18, 0x02] =
      [0xA6, 0x01, 0x00, 0x00, 0x00, 0x04, 0x01, 0x18, 0x02,
       0xA6 ^^^ 0x01 ^^^ 0x00 ^^^ 0x00 ^^^ 0x00 ^^^ 0x04 ^^^ 0x01 ^^^ 0x18 ^^^ 0x02] := by
  constructor
  · decide
  · decide

/-- C8: the XOR-fold of the empty sequence is 0 and the fold is a homomorphism
under byte-order-preserving concatenation: folding A concatenated with B gives
fold(A) XOR fold(B). -/
theorem csum_concat_hom :
    csum [] = 0 ∧ ∀ A B : List Nat, csum (A ++ B) = csum A ^^^ csum B :=
  ⟨csum_nil, csum_append⟩

/-- C7: for every encoded frame, in either framing mode, and every byte
position other than the checksum byte, changing the byte there to any
different value makes checksum validation of the frame fail. -/
theorem corrupt_byte_invalid (alt : Bool) (val : List Nat) (i b : Nat)
    (hi : i + 1 < (encode alt val).length) (hb : b ≠ (encode alt val).getD i 0) :
    valid ((encode alt val).set i b) = false := by
  have hlen : (encode alt val).length = (encodeBody alt val).length + 1 := by
    rw [encode_eq]; simp
  have hib : i < (encodeBody alt val).length := by omega
  have hb2 : b ≠ (encodeBody alt val).getD i 0 := by
    rw [← encodeBody_getD alt val i hib]; exact hb
  rw [encode_eq]
  exact valid_set_ne (encodeBody alt val) i b hib hb2

/-- C7 witness: flipping the first header byte of the encoded ON frame to 0x07
makes validation fail. -/
theorem corrupt_byte_invalid_witness :
    0 + 1 < (encode false [0x18, 0x02]).length ∧
    (7 : Nat) ≠ (encode false [0x18, 0x02]).getD 0 0 ∧
    valid ((encode false [0x18, 0x02]).set 0 7) = false :=
  ⟨by decide, by decide, corrupt_byte_invalid false [0x18, 0x02] 0 7 (by decide) (by decide)⟩

/-- C3: a requested baud rate outside {1200, 9600, 19200, 38400, 57600,
115200} makes the configuration fail (none, the fatal default branch) with no
silent fallback rate, while for every rate inside the set the CBAUD field of
the resulting Cflag equals the corresponding baud bits. -/
theorem configureCflag_speed (c speed : Nat) :
    (speed ∉ [1200, 9600, 19200, 38400, 57600, 115200] → configureCflag c speed = none) ∧
    (configureCflag c speed).map (fun x => x &&& CBAUD) = baudBits speed := by
  constructor
  · intro h
    simp only [List.mem_cons, List.not_mem_nil, or_false, not_or] at h
    obtain ⟨h1, h2, h3, h4, h5, h6⟩ := h
    simp [configureCflag, baudBits, h1, h2, h3, h4, h5, h6]
  · unfold configureCflag baudBits
    split_ifs <;> simp [Option.map] <;> exact cflag_or_baud c _ (by decide)

/-- C3 witness: baud 4800 is rejected with no fallback, and baud 9600 sets the
B9600 bits in the CBAUD field. -/
theorem configureCflag_speed_witness :
    configureCflag 0 4800 = none ∧
    (configureCflag 0 9600).map (fun x => x &&& CBAUD) = baudBits 9600 :=
  ⟨(configureCflag_speed 0 4800).1 (by decide), (configureCflag_speed 0 9600).2⟩

/-- C4 counterexample: with the unknown command BOGUS and no custom payload,
the run ends in the usage outcome, yet the port open call is attempted, so it
is false that no I/O is attempted on the port at all. -/
theorem unknown_cmd_opens_port :
    (run (fun _ => none) ⟨"BOGUS", "", false, false, 9600⟩).1 = Outcome.usage ∧
    Event.openPort ∈ (run (fun _ => none) ⟨"BOGUS", "", false, false, 9600⟩).2 := by
  constructor
  · decide
  · decide

/-- C4 (amended): for every command selector that is not a registered key
(including the empty string), with no raw payload override, the run ends in
the usage outcome and the only port operation attempted is the open call made
just before the check: the port is never flushed, configured, written to or
read from. -/
theorem unknown_cmd_usage (unquote : String → Option (List Nat)) (a : Args)
    (hc : a.cust = "") (hl : List.lookup a.cmd commands = none) :
    run unquote a = (Outcome.usage, [Event.openPort]) := by
  simp [run, hc, hl, runPort]

/-- C4 witness: the amended statement at the concrete unknown selector
BOGUS. -/
theorem unknown_cmd_usage_witness :
    run (fun _ => none) ⟨"BOGUS", "", false, false, 9600⟩ = (Outcome.usage, [Event.openPort]) :=
  unknown_cmd_usage (fun _ => none) ⟨"BOGUS", "", false, false, 9600⟩ rfl (by decide)

/-- C2 (amended): a payload longer than 253 bytes does not make encoding
fail: no error is raised, the length byte is computed modulo 256, and the
frame is still produced and written to the port. -/
theorem overlong_payload_still_encoded (unquote : String → Option (List Nat)) (a : Args)
    (v : List Nat) (hc : a.cust ≠ "") (hu : unquote a.cust = some v) (hn : 253 < v.length)
    (hh : a.help = false) (hs : (baudBits a.speed).isSome = true) :
    (run unquote a).1 = Outcome.done (encode a.alt v) ∧
      Event.writeFrame (encode a.alt v) ∈ (run unquote a).2 := by
  obtain ⟨b, hb⟩ := Option.isSome_iff_exists.mp hs
  simp [run, hc, hu, runPort, hh, hb]

/-- Unquoting stand-in returning a 254-byte payload, used to exercise the
overlong-payload behaviour. -/
def u254 : String → Option (List Nat) := fun _ => some (List.replicate 254 0x41)

/-- Unquoting stand-in returning a 300-byte payload. -/
def u300 : String → Option (List Nat) := fun _ => some (List.replicate 300 0x42)

set_option maxRecDepth 8192 in
/-- C2 counterexample: for a custom 254-byte payload, encoding does not fail
before I/O; the frame is produced and the write of that frame is attempted. -/
theorem overlong_payload_no_error :
    (run u254 ⟨"", "A", false, false, 9600⟩).1 = Outcome.done (encode false (List.replicate 254 0x41)) ∧
    Event.writeFrame (encode false (List.replicate 254 0x41)) ∈ (run u254 ⟨"", "A", false, false, 9600⟩).2 := by
  constructor
  · decide
  · decide

set_option maxRecDepth 8192 in
/-- C2 witness: the amended statement at a concrete 300-byte custom
payload. -/
theorem overlong_payload_still_encoded_witness :
    (run u300 ⟨"X", "B", false, false, 9600⟩).1 = Outcome.done (encode false (List.replicate 300 0x42)) ∧
    Event.writeFrame (encode false (List.replicate 300 0x42)) ∈ (run u300 ⟨"X", "B", false, false, 9600⟩).2 :=
  overlong_payload_still_encoded u300 ⟨"X", "B", false, false, 9600⟩ (List.replicate 300 0x42)
    (by decide) rfl (by decide) rfl (by decide)

/-- Command names registered in both revisions of the tool. -/
def bothNames : List String :=
  commands.filterMap (fun p => if (List.lookup p.1 commandsOld).isSome then some p.1 else none)

/-- C9: there are 22 command names registered in both revisions (ON, OFF, the
VOL steps, PIC-NORM through PIC-FULL and the PIP positions), and for each of
them the newer revision bare-payload encoding produces byte-for-byte the same
wire frame as the older revision pre-framed table entry with its appended
checksum. -/
theorem shared_commands_refine :
    bothNames.length = 22 ∧
    bothNames.all (fun n =>
      encode false ((List.lookup n commands).getD []) ==
        encodeOld ((List.lookup n commandsOld).getD [])) = true := by
  constructor
  · decide
  · decide

/-- C10: a non-empty custom payload string takes precedence over the
registry: when unquoting succeeds the transmitted frame encodes exactly the
unquoted bytes (shown under help off and a valid speed), the command-name
lookup is ignored (the run is unchanged under any replacement of the command
name), and when unquoting fails the run terminates fatally with no port I/O
attempted at all. -/
theorem cust_overrides (unquote : String → Option (List Nat)) (a : Args) (hc : a.cust ≠ "") :
    (∀ v, unquote a.cust = some v → a.help = false → (baudBits a.speed).isSome = true →
      run unquote a = (Outcome.done (encode a.alt v),
        [Event.openPort, Event.flushPort, Event.getAttrs, Event.setAttrs,
         Event.writeFrame (encode a.alt v), Event.readResp])) ∧
    (∀ c2, run unquote a = run unquote ⟨c2, a.cust, a.alt, a.help, a.speed⟩) ∧
    (unquote a.cust = none → run unquote a = (Outcome.fatalUnquote, [])) := by
  refine ⟨?_, ?_, ?_⟩
  · intro v hv hh hs
    obtain ⟨b, hb⟩ := Option.isSome_iff_exists.mp hs
    simp [run, hc, hv, runPort, hh, hb]
  · intro c2
    simp [run, hc]
  · intro hn
    simp [run, hc, hn]

/-- Unquoting stand-in mapping the string x18 to the byte 0x18. -/
def uw : String → Option (List Nat) := fun s => if s = "x18" then some [0x18] else none

/-- C10 witness: with an empty (unregistered) command name and the custom
string x18, the run transmits the frame encoding payload 0x18; and with an
unquote failure the run is fatal with no I/O. -/
theorem cust_overrides_witness :
    run uw ⟨"", "x18", false, false, 9600⟩ =
      (Outcome.done (encode false [0x18]),
       [Event.openPort, Event.flushPort, Event.getAttrs, Event.setAttrs,
        Event.writeFrame (encode false [0x18]), Event.readResp]) ∧
    run uw ⟨"", "bad", false, false, 9600⟩ = (Outcome.fatalUnquote, []) :=
  ⟨(cust_overrides uw ⟨"", "x18", false, false, 9600⟩ (by decide)).1 [0x18] (by decide) rfl
      (by decide),
   (cust_overrides uw ⟨"", "bad", false, false, 9600⟩ (by decide)).2.2 (by decide)⟩
